import Mathlib

/-!
Verification development for the roofing-competitor-analyzer pipeline
(`src/app.py`).

The Python source is shallowly embedded below.  Conventions:

* Python strings are modelled as `List Char` (`Str`); Python `float` is
  modelled as `ℚ`; Python `int` as `ℤ`/`ℕ`.
* `dict.get(k, default)` on loosely structured provider records is modelled
  by `Option` fields plus `Option.getD`.
* External transports (the geocoding, nearby-search and place-details HTTP
  providers, and geopy's geodesic distance) are modelled as explicit inputs:
  the sequence of provider responses, a response function per place id, and
  a distance function parameter.
* A Python exception path that a claim is about (the `ZeroDivisionError` in
  the average-rating display) is modelled by `Option`, `none` meaning that
  the Python expression raises.
-/

/-- Python strings are modelled as lists of characters. -/
abbrev Str := List Char

/-- Shorthand to turn a Lean string literal into `Str`. -/
def str (s : String) : Str := s.toList

/-- ASCII lower-casing of one character (`str.lower` on the ASCII texts the
analyzer processes). -/
def asciiLower (c : Char) : Char :=
  if 65 ≤ c.toNat ∧ c.toNat ≤ 90 then Char.ofNat (c.toNat + 32) else c

/-- `text.lower()` on a whole string. -/
def lowerStr (s : Str) : Str := s.map asciiLower

/-- Python's substring test `needle in hay`. -/
def containsSub (hay needle : Str) : Bool :=
  match hay with
  | [] => needle.isEmpty
  | c :: t => if needle.isPrefixOf (c :: t) then true else containsSub t needle

/-- Scanning loop of `hay.count(needle)` for a non-empty needle: advance
past each non-overlapping occurrence.  The fuel only bounds the recursion
so that the definition is structural (hence kernel-reducible); every step
consumes at least one character, so `hay.length` fuel never runs out. -/
def countOccsGo (fuel : Nat) (needle : Str) : Str → Nat
  | [] => 0
  | c :: t =>
    match fuel with
    | 0 => 0
    | fuel + 1 =>
      if needle.isPrefixOf (c :: t) then
        countOccsGo fuel needle (t.drop (needle.length - 1)) + 1
      else
        countOccsGo fuel needle t

/-- Python's `hay.count(needle)`: number of non-overlapping occurrences,
scanning left to right (and `len(hay) + 1` for the empty needle, as in
Python). -/
def countOccs (needle hay : Str) : Nat :=
  if needle = [] then hay.length + 1 else countOccsGo hay.length needle hay

/-- ASCII upper-casing of one character. -/
def asciiUpper (c : Char) : Char :=
  if 97 ≤ c.toNat ∧ c.toNat ≤ 122 then Char.ofNat (c.toNat - 32) else c

/-- ASCII model of Python's `str.title()`: the first alphabetic character of
each alphabetic run is upper-cased, later ones lower-cased. -/
def titleCase (s : Str) : Str :=
  (s.foldl
    (fun (acc : Str × Bool) c =>
      if c.isAlpha then
        (acc.1 ++ [if acc.2 then asciiLower c else asciiUpper c], true)
      else (acc.1 ++ [c], false))
    ([], false)).1

/-- `' '.join(texts)`. -/
def joinSpace (texts : List Str) : Str := List.intercalate [' '] texts

/-- One step of the source's duplicate-avoiding accumulation
(`if match not in acc: acc.append(match)`). -/
def appendIfNew {α : Type} [DecidableEq α] (acc : List α) (m : α) : List α :=
  if m ∈ acc then acc else acc ++ [m]

/-- Left fold of `appendIfNew`: keep the first occurrence of every element,
in first-seen order. -/
def dedupFirst {α : Type} [DecidableEq α] (xs : List α) : List α :=
  xs.foldl appendIfNew []

/-!
A small regular-expression engine covering exactly the constructs used by
the source's `price_patterns` (`src/app.py` lines 132-136): literal
characters, single-character classes (`[\d,]`, `[\d.]`, `\s`, `.`), and the
greedy quantifiers `+`, `*`, `?` applied to single-character elements.  The
matcher reproduces Python `re` semantics for such patterns: leftmost match,
greedy quantifiers with backtracking, and `findall`'s non-overlapping
left-to-right scan resuming at each match's end.
-/

/-- One regex piece: a single-character element, possibly quantified. -/
inductive RPiece where
  | one : (Char → Bool) → RPiece
  | star : (Char → Bool) → RPiece
  | plus : (Char → Bool) → RPiece
  | opt : (Char → Bool) → RPiece

/-- A regex is a sequence of pieces. -/
abbrev Regex := List RPiece

/-- Length of the maximal run of characters satisfying `p` at the front. -/
def runLen (p : Char → Bool) : Str → Nat
  | [] => 0
  | c :: t => if p c then runLen p t + 1 else 0

/-- Greedy backtracking helper: try consuming `k, k-1, ..., 0` characters
for a starred element and return the first success. -/
def firstSome (f : Nat → Option Nat) : Nat → Option Nat
  | 0 => f 0
  | k + 1 =>
    match f (k + 1) with
    | some n => some n
    | none => firstSome f k

/-- Match `re` against a prefix of `s`; returns the length of the matched
prefix chosen by Python's greedy backtracking order, if any. -/
def reMatch (re : Regex) (s : Str) : Option Nat :=
  match re, s with
  | [], _ => some 0
  | .one e :: ps, s =>
    match s with
    | [] => none
    | c :: t => if e c then (reMatch ps t).map (· + 1) else none
  | .star e :: ps, s =>
    firstSome (fun k => (reMatch ps (s.drop k)).map (k + ·)) (runLen e s)
  | .plus e :: ps, s =>
    match s with
    | [] => none
    | c :: t =>
      if e c then
        (firstSome (fun k => (reMatch ps (t.drop k)).map (k + ·)) (runLen e t)).map (· + 1)
      else none
  | .opt e :: ps, s =>
    match s with
    | [] => reMatch ps []
    | c :: t =>
      if e c then
        match reMatch ps t with
        | some n => some (n + 1)
        | none => reMatch ps (c :: t)
      else reMatch ps (c :: t)

/-- Scanning loop of `re.findall`.  As with `countOccsGo`, the fuel only
makes the recursion structural; every recursive step consumes at least one
character, so `s.length + 1` fuel never runs out. -/
def findAllGo (fuel : Nat) (re : Regex) (s : Str) : List Str :=
  match fuel with
  | 0 => []
  | fuel + 1 =>
    match s with
    | [] =>
      match reMatch re [] with
      | some _ => [[]]
      | none => []
    | c :: t =>
      match reMatch re (c :: t) with
      | some 0 => [] :: findAllGo fuel re t
      | some (n + 1) => ((c :: t).take (n + 1)) :: findAllGo fuel re (t.drop n)
      | none => findAllGo fuel re t

/-- Python's `re.findall` for group-free patterns: scan left to right,
collect non-overlapping matches, resume after each match (advancing one
character past an empty match, as Python does). -/
def findAll (re : Regex) (s : Str) : List Str := findAllGo (s.length + 1) re s

/-- A sequence of literal characters as a regex. -/
def litRe (w : Str) : Regex := w.map (fun ch => RPiece.one (fun c => c = ch))

/-- `\d` (ASCII, as matched on the digits appearing in review text). -/
def isDig (c : Char) : Bool := c.isDigit

/-- The class `[\d,]`. -/
def digComma (c : Char) : Bool := c.isDigit || c = ','

/-- The class `[\d.]`. -/
def digDot (c : Char) : Bool := c.isDigit || c = '.'

/-- `\s` (ASCII whitespace, as in Python `re` on ASCII text). -/
def isWs (c : Char) : Bool :=
  c = ' ' || c = '\t' || c = '\n' || c = '\r' || c = '\x0b' || c = '\x0c'

/-- `.` — any character except newline. -/
def anyDot (c : Char) : Bool := c != '\n'

/-- The source's ordered `price_patterns` (`src/app.py` lines 132-136):
`\$[\d,]+`, `[\d,]+\s*dollars?`, `cost.*\$[\d,]+`, `price.*\$[\d,]+`,
`quote.*\$[\d,]+`, `estimate.*\$[\d,]+`, `\$[\d,]+.*square\s*foot`,
`[\d.]+\s*per\s*square\s*foot`.  They are applied to already lower-cased
text, so `re.IGNORECASE` has no additional effect. -/
def price_patterns : List Regex :=
  [ [RPiece.one (fun c => c = '$'), RPiece.plus digComma],
    [RPiece.plus digComma, RPiece.star isWs] ++ litRe (str "dollar") ++
      [RPiece.opt (fun c => c = 's')],
    litRe (str "cost") ++ [RPiece.star anyDot, RPiece.one (fun c => c = '$'), RPiece.plus digComma],
    litRe (str "price") ++ [RPiece.star anyDot, RPiece.one (fun c => c = '$'), RPiece.plus digComma],
    litRe (str "quote") ++ [RPiece.star anyDot, RPiece.one (fun c => c = '$'), RPiece.plus digComma],
    litRe (str "estimate") ++ [RPiece.star anyDot, RPiece.one (fun c => c = '$'), RPiece.plus digComma],
    [RPiece.one (fun c => c = '$'), RPiece.plus digComma, RPiece.star anyDot] ++
      litRe (str "square") ++ [RPiece.star isWs] ++ litRe (str "foot"),
    [RPiece.plus digDot, RPiece.star isWs] ++ litRe (str "per") ++ [RPiece.star isWs] ++
      litRe (str "square") ++ [RPiece.star isWs] ++ litRe (str "foot") ]

/-! ## Data model -/

/-- One review record; the source only accesses `review.get('text', '')`,
so only the (optional) text field is modelled. -/
structure Review where
  text : Option Str
deriving DecidableEq

/-- `review.get('text', '')`. -/
def reviewText (r : Review) : Str := r.text.getD []

/-- A business stub as produced by the nearby search: the source accesses
`place['place_id']` and `place['geometry']['location']`. -/
structure Place where
  place_id : Str
  lat : ℚ
  lng : ℚ
deriving DecidableEq

/-- A place-details record with the projected fields
(`name,formatted_address,formatted_phone_number,rating,user_ratings_total,website,reviews`);
each field is optional, as the provider may omit it. -/
structure DetailRecord where
  name : Option Str
  formatted_address : Option Str
  formatted_phone_number : Option Str
  rating : Option ℚ
  user_ratings_total : Option ℤ
  website : Option Str
  reviews : Option (List Review)
deriving DecidableEq

/-- The empty record `{}` returned by `get_place_details` on a non-OK
status: every projected field absent. -/
def emptyRecord : DetailRecord :=
  { name := none, formatted_address := none, formatted_phone_number := none,
    rating := none, user_ratings_total := none, website := none, reviews := none }

/-- Python's truthiness test `not details` on the record: a dict restricted
to the projected fields is empty exactly when every field is absent. -/
def DetailRecord.isEmpty (d : DetailRecord) : Bool :=
  d.name.isNone && d.formatted_address.isNone && d.formatted_phone_number.isNone &&
    d.rating.isNone && d.user_ratings_total.isNone && d.website.isNone && d.reviews.isNone

/-- A place-details provider response: status plus the `result` record. -/
structure DetailsResponse where
  status : Str
  result : DetailRecord
deriving DecidableEq

/-- One nearby-search provider response page: status, the stub list, and the
optional `next_page_token`. -/
structure SearchPage where
  status : Str
  results : List Place
  next_page_token : Option Str
deriving DecidableEq

/-- The central output entity (`@dataclass Competitor`, `src/app.py`
lines 25-38). -/
structure Competitor where
  name : Str
  address : Str
  phone : Str
  rating : ℚ
  review_count : ℤ
  website : Str
  distance_miles : ℚ
  pricing_info : List Str
  services : List Str
  positive_keywords : List Str
  negative_keywords : List Str
  review_themes : List (Str × Nat)
deriving DecidableEq

/-! ## Keyword taxonomy (`RoofingCompetitorAnalyzer.__init__`, lines 46-71) -/

/-- `self.opportunity_keywords`: theme name → trigger phrases, in the
source's insertion order. -/
def opportunity_keywords : List (Str × List Str) :=
  [ (str "speed", [str "fast", str "quick", str "prompt", str "timely", str "on time", str "efficient"]),
    (str "quality", [str "quality", str "excellent", str "professional", str "skilled", str "expert", str "craftsmanship"]),
    (str "price", [str "affordable", str "reasonable", str "cheap", str "expensive", str "overpriced", str "fair price"]),
    (str "communication", [str "responsive", str "communicative", str "explained", str "kept informed", str "poor communication"]),
    (str "cleanup", [str "clean", str "cleanup", str "messy", str "left debris", str "neat", str "tidy"]),
    (str "warranty", [str "warranty", str "guarantee", str "stands behind work", str "honor warranty"]),
    (str "insurance", [str "insurance", str "claim", str "insurance work", str "help with insurance"]),
    (str "emergency", [str "emergency", str "urgent", str "storm damage", str "leak", str "immediate"]),
    (str "materials", [str "materials", str "shingles", str "metal", str "tile", str "membrane", str "quality materials"]),
    (str "experience", [str "experienced", str "years in business", str "knowledgeable", str "inexperienced"]),
    (str "scheduling", [str "flexible", str "scheduling", str "appointment", str "showed up", str "no show", str "late"]),
    (str "estimate", [str "free estimate", str "accurate estimate", str "detailed quote", str "overestimate"]) ]

/-- `self.negative_indicators` (lines 61-65). -/
def negative_indicators : List Str :=
  [ str "disappointed", str "unprofessional", str "rude", str "late", str "no show", str "poor",
    str "terrible", str "awful", str "bad", str "worst", str "avoid", str "scam", str "overcharged",
    str "shoddy", str "cheap work", str "leaked", str "failed", str "damaged", str "nightmare" ]

/-- `self.positive_indicators` (lines 67-71). -/
def positive_indicators : List Str :=
  [ str "excellent", str "amazing", str "professional", str "recommend", str "great", str "fantastic",
    str "wonderful", str "outstanding", str "perfect", str "impressed", str "satisfied", str "happy",
    str "reliable", str "trustworthy", str "honest", str "fair", str "quality work" ]

/-- `service_keywords` of `extract_services_from_text` (lines 150-156). -/
def service_keywords : List Str :=
  [ str "roof repair", str "roof replacement", str "roof installation",
    str "shingle", str "metal roof", str "tile roof", str "flat roof",
    str "gutter", str "siding", str "leak repair", str "storm damage",
    str "insurance claims", str "emergency repair", str "inspection",
    str "maintenance", str "ventilation", str "skylight" ]

/-! ## TextMiner -/

/-- `extract_pricing_from_reviews` (lines 130-146): for each review, lower
its text, apply the ordered patterns, and append each match not already
collected. -/
def extract_pricing_from_reviews (reviews : List Review) : List Str :=
  reviews.foldl
    (fun acc review =>
      let text := lowerStr (reviewText review)
      price_patterns.foldl
        (fun acc pattern => (findAll pattern text).foldl appendIfNew acc)
        acc)
    []

/-- `extract_services_from_text` (lines 148-163): collect the title-cased
vocabulary phrases occurring in the lower-cased text, then `list(set(...))`.
Python's `set` iteration order is unspecified; since the collected list is
already duplicate-free, `list(set(...))` is some permutation of it, modelled
here as the first-seen-order deduplication. -/
def extract_services_from_text (text : Str) : List Str :=
  let text_lower := lowerStr text
  let services := service_keywords.foldl
    (fun acc keyword =>
      if containsSub text_lower keyword then acc ++ [titleCase keyword] else acc)
    []
  dedupFirst services

/-- The lower-cased blob `all_text = ' '.join([review.get('text', '').lower()
for review in reviews])` of `analyze_review_keywords` (line 166). -/
def allTextOf (reviews : List Review) : Str :=
  joinSpace (reviews.map (fun r => lowerStr (reviewText r)))

/-- `analyze_review_keywords` (lines 165-177): sentiment presence lists in
vocabulary order, and the theme → summed-occurrence-count mapping (a dict in
taxonomy insertion order, keeping only positive counts). -/
def analyze_review_keywords (reviews : List Review) :
    List Str × List Str × List (Str × Nat) :=
  let all_text := allTextOf reviews
  let positive_found := positive_indicators.filter (fun keyword => containsSub all_text keyword)
  let negative_found := negative_indicators.filter (fun keyword => containsSub all_text keyword)
  let themes := opportunity_keywords.foldl
    (fun acc p =>
      let count := (p.2.map (fun keyword => countOccs keyword all_text)).sum
      if count > 0 then acc ++ [(p.1, count)] else acc)
    []
  (positive_found, negative_found, themes)

/-! ## PlaceSearcher, DetailsFetcher, ProfileBuilder, pipeline -/

/-- `int(radius_miles * 1609.34)` (line 86/90).  The UI slider only offers
positive radii, where Python's truncation toward zero agrees with the
floor. -/
def radius_meters (radius_miles : ℚ) : ℤ := ⌊radius_miles * (160934 / 100 : ℚ)⌋

/-- `search_nearby_roofing_companies` (lines 85-113), modelled over the
sequence of provider responses in request order: the head is the first
response; each follow-up request (issued only while the current page carries
a `next_page_token`) consumes the next element.  First page non-OK → `[]`;
OK pages accumulate; a non-OK follow-up page stops the loop keeping what was
accumulated. -/
def search_nearby_roofing_companies (pages : List SearchPage) : List Place :=
  match pages with
  | [] => []
  | page :: rest =>
    if page.status = str "OK" then
      page.results ++
        (match page.next_page_token with
         | some _ => search_nearby_roofing_companies rest
         | none => [])
    else []

/-- `get_place_details` (lines 115-128): the `result` record on an OK
status, the empty record `{}` otherwise. -/
def get_place_details (resp : DetailsResponse) : DetailRecord :=
  if resp.status = str "OK" then resp.result else emptyRecord

/-- Python's `round(x, 2)` on the rational model: round to the nearest
multiple of 1/100, ties to even. -/
def roundHalfEven (q : ℚ) : ℤ :=
  let f := ⌊q⌋
  let r := q - (f : ℚ)
  if r < 1 / 2 then f
  else if 1 / 2 < r then f + 1
  else if f % 2 = 0 then f else f + 1

/-- `round(distance, 2)` (line 213/343). -/
def round2 (q : ℚ) : ℚ := (roundHalfEven (q * 100) : ℚ) / 100

/-- The `Competitor(...)` construction of the per-stub loop (lines 194-219
and identically 324-349).  `dist` models geopy's
`geodesic(origin, location).miles`, an external library function taken as a
parameter. -/
def buildCompetitor (dist : ℚ × ℚ → ℚ × ℚ → ℚ) (origin : ℚ × ℚ)
    (place : Place) (details : DetailRecord) : Competitor :=
  let distance := dist origin (place.lat, place.lng)
  let reviews := details.reviews.getD []
  let pricing_info := extract_pricing_from_reviews reviews
  let all_text := joinSpace (reviews.map reviewText)
  let services := extract_services_from_text (all_text ++ [' '] ++ details.name.getD [])
  let keywords := analyze_review_keywords reviews
  { name := details.name.getD (str "Unknown"),
    address := details.formatted_address.getD (str "Unknown"),
    phone := details.formatted_phone_number.getD (str "Not available"),
    rating := details.rating.getD 0,
    review_count := details.user_ratings_total.getD 0,
    website := details.website.getD (str "Not available"),
    distance_miles := round2 distance,
    pricing_info := pricing_info,
    services := services,
    positive_keywords := keywords.1,
    negative_keywords := keywords.2.1,
    review_themes := keywords.2.2 }

/-- The per-stub loop of `analyze_competitors` (lines 188-222; `main` runs
the identical loop at lines 314-352): fetch details for each stub, skip the
stub when the record is empty, otherwise append the built Competitor.
`resp` models the details provider's response per place id. -/
def buildCompetitors (dist : ℚ × ℚ → ℚ × ℚ → ℚ) (origin : ℚ × ℚ)
    (resp : Str → DetailsResponse) (places : List Place) : List Competitor :=
  places.foldl
    (fun acc place =>
      let details := get_place_details (resp place.place_id)
      if details.isEmpty then acc
      else acc ++ [buildCompetitor dist origin place details])
    []

/-- The sort key relation of `competitors.sort(key=lambda x:
x.distance_miles)` (line 225/355). -/
def distLe (a b : Competitor) : Prop := a.distance_miles ≤ b.distance_miles

instance : DecidableRel distLe :=
  fun a b => inferInstanceAs (Decidable (a.distance_miles ≤ b.distance_miles))

instance : IsTotal Competitor distLe := ⟨fun a b => le_total a.distance_miles b.distance_miles⟩

instance : IsTrans Competitor distLe := ⟨fun _ _ _ hab hbc => le_trans hab hbc⟩

/-- `competitors.sort(key=lambda x: x.distance_miles)` (line 225/355).
Python's `list.sort` is a stable sort; any stable sort computes the same
output list, so it is modelled by the stable `List.insertionSort` on the
same key. -/
def sortByDistance (competitors : List Competitor) : List Competitor :=
  competitors.insertionSort distLe

/-- `analyze_competitors` after geocoding and search (lines 186-227): build
the competitor list from the stubs and sort ascending by distance. -/
def analyze_competitors (dist : ℚ × ℚ → ℚ × ℚ → ℚ) (origin : ℚ × ℚ)
    (resp : Str → DetailsResponse) (places : List Place) : List Competitor :=
  sortByDistance (buildCompetitors dist origin resp places)

/-! ## Aggregation (`main`, lines 384-397 and 486-497) -/

/-- The displayed average rating (line 388):
`sum(c.rating for c in competitors if c.rating > 0) /
 len([c for c in competitors if c.rating > 0])`.
`none` models the `ZeroDivisionError` Python raises when the denominator,
the number of competitors with rating > 0, is zero. -/
def avg_rating (competitors : List Competitor) : Option ℚ :=
  let positives := competitors.filter (fun c => decide (0 < c.rating))
  if positives.length = 0 then none
  else some ((positives.map Competitor.rating).sum / (positives.length : ℚ))

/-- `total_reviews = sum(c.review_count for c in competitors)` (line 392). -/
def total_reviews (competitors : List Competitor) : ℤ :=
  (competitors.map Competitor.review_count).sum

/-- `all_services` accumulation of the service-gap analysis (lines 487-489). -/
def all_services (competitors : List Competitor) : List Str :=
  competitors.foldl (fun acc c => acc ++ c.services) []

/-- `Counter(all_services)` (line 491): each distinct element (in
first-occurrence order, as a Python dict iterates) with its multiplicity. -/
def serviceCounter (services : List Str) : List (Str × Nat) :=
  (dedupFirst services).map (fun s => (s, services.count s))

/-- The service-gap filter (lines 494-497): keep the `(service, count)`
entries with `count / total_competitors < 0.3`.  The code formats each kept
entry into a display string; the flagged set is what the claims concern. -/
def service_gaps (competitors : List Competitor) : List (Str × Nat) :=
  let total := competitors.length
  (serviceCounter (all_services competitors)).filter
    (fun p => decide ((p.2 : ℚ) / (total : ℚ) < 3 / 10))

/-- The flagged service names. -/
def gapServices (competitors : List Competitor) : List Str :=
  (service_gaps competitors).map Prod.fst

/-- The `'Top Complaints'` column of `create_competitor_dataframe`
(line 249): the first 3 negative keywords. -/
def top_complaints (comp : Competitor) : List Str :=
  comp.negative_keywords.take 3

/-! ## Infrastructure lemmas -/

theorem foldl_appendIfNew_mem {α : Type} [DecidableEq α] (xs : List α) (acc : List α) (x : α) :
    x ∈ xs.foldl appendIfNew acc ↔ x ∈ acc ∨ x ∈ xs := by
  induction xs generalizing acc with
  | nil => simp
  | cons y ys ih =>
    simp only [List.foldl_cons, ih, appendIfNew]
    by_cases hy : y ∈ acc
    · simp only [if_pos hy, List.mem_cons]
      constructor
      · rintro (h | h)
        · exact Or.inl h
        · exact Or.inr (Or.inr h)
      · rintro (h | h | h)
        · exact Or.inl h
        · exact Or.inl (h ▸ hy)
        · exact Or.inr h
    · simp only [if_neg hy, List.mem_append, List.mem_singleton, List.mem_cons]
      tauto

theorem foldl_appendIfNew_nodup {α : Type} [DecidableEq α] (xs : List α) (acc : List α)
    (h : acc.Nodup) : (xs.foldl appendIfNew acc).Nodup := by
  induction xs generalizing acc with
  | nil => exact h
  | cons y ys ih =>
    simp only [List.foldl_cons, appendIfNew]
    by_cases hy : y ∈ acc
    · simpa [if_pos hy] using ih acc h
    · refine ih _ ?_
      simpa [List.nodup_append, if_neg hy] using ⟨h, hy⟩

theorem foldl_appendIfNew_absorb {α : Type} [DecidableEq α] (xs : List α) (acc : List α)
    (h : ∀ x ∈ xs, x ∈ acc) : xs.foldl appendIfNew acc = acc := by
  induction xs with
  | nil => rfl
  | cons y ys ih =>
    have hy : y ∈ acc := h y (List.mem_cons_self y ys)
    simp only [List.foldl_cons, appendIfNew, if_pos hy]
    exact ih (fun x hx => h x (List.mem_cons_of_mem y hx))

theorem dedupFirst_nodup {α : Type} [DecidableEq α] (xs : List α) : (dedupFirst xs).Nodup :=
  foldl_appendIfNew_nodup xs [] List.nodup_nil

theorem mem_dedupFirst {α : Type} [DecidableEq α] (xs : List α) (x : α) :
    x ∈ dedupFirst xs ↔ x ∈ xs := by
  simpa using foldl_appendIfNew_mem xs [] x

theorem dedupFirst_append_self {α : Type} [DecidableEq α] (xs : List α) :
    dedupFirst (xs ++ xs) = dedupFirst xs := by
  unfold dedupFirst
  rw [List.foldl_append]
  exact foldl_appendIfNew_absorb xs _
    (fun x hx => (foldl_appendIfNew_mem xs [] x).mpr (Or.inr hx))

theorem foldl_collect_eq_flatMap {α β : Type} [DecidableEq β] (f : α → List β)
    (xs : List α) (acc : List β) :
    xs.foldl (fun acc x => (f x).foldl appendIfNew acc) acc =
      (xs.flatMap f).foldl appendIfNew acc := by
  induction xs generalizing acc with
  | nil => rfl
  | cons y ys ih => simp only [List.foldl_cons, List.flatMap_cons, List.foldl_append, ih]

theorem foldl_append_eq_flatMap {α β : Type} (f : α → List β) (xs : List α) (acc : List β) :
    xs.foldl (fun acc x => acc ++ f x) acc = acc ++ xs.flatMap f := by
  induction xs generalizing acc with
  | nil => simp
  | cons y ys ih => simp [List.foldl_cons, ih]

/-- Formulation of the spec's wording for `extractPricing`'s collection
order: the stream of all pattern matches, review by review (each review's
text matched separately) and pattern by pattern within a review. -/
def pricingMatchStream (reviews : List Review) : List Str :=
  reviews.flatMap
    (fun review => price_patterns.flatMap
      (fun pattern => findAll pattern (lowerStr (reviewText review))))

theorem extract_pricing_eq_dedup_stream (reviews : List Review) :
    extract_pricing_from_reviews reviews = dedupFirst (pricingMatchStream reviews) := by
  unfold extract_pricing_from_reviews dedupFirst pricingMatchStream
  have hstep :
      (fun (acc : List Str) (review : Review) =>
        price_patterns.foldl
          (fun acc pattern => (findAll pattern (lowerStr (reviewText review))).foldl appendIfNew acc)
          acc) =
      (fun (acc : List Str) (review : Review) =>
        (price_patterns.flatMap
          (fun pattern => findAll pattern (lowerStr (reviewText review)))).foldl appendIfNew acc) := by
    funext acc review
    exact foldl_collect_eq_flatMap _ price_patterns acc
  rw [hstep]
  exact foldl_collect_eq_flatMap _ reviews []

/-- The summed occurrence count of a theme's trigger phrases over the blob
(line 173: `sum(all_text.count(keyword) for keyword in keywords)`). -/
def themeCount (keywords : List Str) (all_text : Str) : Nat :=
  (keywords.map (fun keyword => countOccs keyword all_text)).sum

theorem themes_foldl_eq_filterMap (ws : List (Str × List Str)) (all_text : Str)
    (acc : List (Str × Nat)) :
    ws.foldl
      (fun acc p =>
        let count := (p.2.map (fun keyword => countOccs keyword all_text)).sum
        if count > 0 then acc ++ [(p.1, count)] else acc)
      acc =
    acc ++ ws.filterMap
      (fun p =>
        if 0 < themeCount p.2 all_text then some (p.1, themeCount p.2 all_text) else none) := by
  simp only [themeCount]
  induction ws generalizing acc with
  | nil => simp
  | cons w ws ih =>
    simp only [List.foldl_cons, List.filterMap_cons]
    by_cases h : 0 < (w.2.map (fun keyword => countOccs keyword all_text)).sum
    · simp only [if_pos h, gt_iff_lt, ih, List.append_assoc, List.singleton_append]
    · simp only [if_neg h, gt_iff_lt, ih]

theorem analyze_themes_eq (reviews : List Review) :
    (analyze_review_keywords reviews).2.2 =
      opportunity_keywords.filterMap
        (fun p =>
          if 0 < themeCount p.2 (allTextOf reviews) then
            some (p.1, themeCount p.2 (allTextOf reviews))
          else none) := by
  have h := themes_foldl_eq_filterMap opportunity_keywords (allTextOf reviews) []
  rw [List.nil_append] at h
  exact h

/-- `orderedInsert` on the distance key commutes with filtering one key
class: the inserted element lands in front of its own class and leaves every
class otherwise untouched.  This is the stability kernel for the sort. -/
theorem filter_orderedInsert_dist (d : ℚ) (x : Competitor) (l : List Competitor) :
    (List.orderedInsert distLe x l).filter (fun c => decide (c.distance_miles = d)) =
      if x.distance_miles = d then
        x :: l.filter (fun c => decide (c.distance_miles = d))
      else l.filter (fun c => decide (c.distance_miles = d)) := by
  induction l with
  | nil =>
    simp only [List.orderedInsert_nil, List.filter_cons, List.filter_nil]
    by_cases hx : x.distance_miles = d
    · simp [hx]
    · simp [hx]
  | cons y l ih =>
    simp only [List.orderedInsert]
    by_cases hle : distLe x y
    · simp only [if_pos hle, List.filter_cons]
      by_cases hx : x.distance_miles = d
      · simp [hx]
      · simp [hx]
    · have hylt : y.distance_miles < x.distance_miles := lt_of_not_le hle
      simp only [if_neg hle, List.filter_cons, ih]
      by_cases hx : x.distance_miles = d
      · have hy : ¬ y.distance_miles = d := by
          intro hy
          exact absurd (hy ▸ hx ▸ le_refl _ : x.distance_miles ≤ y.distance_miles) (not_le.mpr hylt)
        simp [hx, hy]
      · by_cases hy : y.distance_miles = d
        · simp [hx, hy]
        · simp [hx, hy]

theorem filter_insertionSort_dist (d : ℚ) (l : List Competitor) :
    (l.insertionSort distLe).filter (fun c => decide (c.distance_miles = d)) =
      l.filter (fun c => decide (c.distance_miles = d)) := by
  induction l with
  | nil => rfl
  | cons x l ih =>
    simp only [List.insertionSort, filter_orderedInsert_dist, ih, List.filter_cons]
    by_cases hx : x.distance_miles = d
    · simp [hx]
    · simp [hx]

/-- Every competitor the per-stub loop produces comes from some stub of the
input list via `buildCompetitor` on its fetched details. -/
theorem mem_buildCompetitors {dist : ℚ × ℚ → ℚ × ℚ → ℚ} {origin : ℚ × ℚ}
    {resp : Str → DetailsResponse} {places : List Place} {c : Competitor}
    (h : c ∈ buildCompetitors dist origin resp places) :
    ∃ place ∈ places, c = buildCompetitor dist origin place (get_place_details (resp place.place_id)) := by
  unfold buildCompetitors at h
  suffices H : ∀ (ps : List Place) (acc : List Competitor),
      c ∈ ps.foldl
        (fun acc place =>
          let details := get_place_details (resp place.place_id)
          if details.isEmpty then acc
          else acc ++ [buildCompetitor dist origin place details]) acc →
      c ∈ acc ∨ ∃ place ∈ ps, c = buildCompetitor dist origin place (get_place_details (resp place.place_id)) by
    rcases H places [] h with h' | h'
    · simp at h'
    · exact h'
  intro ps
  induction ps with
  | nil => intro acc hm; exact Or.inl hm
  | cons q qs ih =>
    intro acc hm
    simp only [List.foldl_cons] at hm
    rcases ih _ hm with h' | ⟨place, hpl, hc⟩
    · by_cases he : (get_place_details (resp q.place_id)).isEmpty
      · simp only [he, if_pos] at h'
        exact Or.inl h'
      · simp only [he, if_neg, Bool.false_eq_true, not_false_iff] at h'
        rcases List.mem_append.mp h' with h'' | h''
        · exact Or.inl h''
        · exact Or.inr ⟨q, List.mem_cons_self q qs, by simpa using h''⟩
    · exact Or.inr ⟨place, List.mem_cons_of_mem q hpl, hc⟩

/-! ## Claim C3: search pagination soft-stop -/

/-- Consistency of a modelled response sequence: a further response exists
only because the previous page carried a `next_page_token` (the code only
issues a follow-up request in that case). -/
def tokensLinked : List SearchPage → Bool
  | [] => true
  | [_] => true
  | p :: q :: rest => p.next_page_token.isSome && tokensLinked (q :: rest)

/-- C3: for every sequence of provider page responses, `search` is a total
function (it raises nothing) and returns exactly the businesses accumulated
over the maximal prefix of OK pages: a non-success follow-up page truncates
pagination and the partial list is returned, and a run that finds nothing
(first page non-OK, e.g. ZERO_RESULTS) yields the empty sequence. -/
theorem c3_search_accumulates_ok_pages (pages : List SearchPage)
    (h : tokensLinked pages = true) :
    search_nearby_roofing_companies pages =
      ((pages.takeWhile (fun page => decide (page.status = str "OK"))).map
        SearchPage.results).flatten := by
  induction pages with
  | nil => rfl
  | cons p rest ih =>
    by_cases hst : p.status = str "OK"
    · cases hpt : p.next_page_token with
      | some t =>
        have hrest : tokensLinked rest = true := by
          cases rest with
          | nil => rfl
          | cons q r => simpa [tokensLinked, hpt] using h
        simp [search_nearby_roofing_companies, hst, hpt, List.takeWhile_cons, ih hrest]
      | none =>
        cases rest with
        | nil => simp [search_nearby_roofing_companies, hst, hpt, List.takeWhile_cons]
        | cons q r =>
          exfalso
          simp [tokensLinked, hpt] at h
    · simp [search_nearby_roofing_companies, hst, List.takeWhile_cons]

/-- A first OK page carrying a pagination token. -/
def c3Page1 : SearchPage := ⟨str "OK", [⟨str "s1", 41, -75⟩], some (str "tok")⟩

/-- A failed follow-up page. -/
def c3Page2 : SearchPage := ⟨str "INVALID_REQUEST", [⟨str "s2", 42, -75⟩], none⟩

/-- An empty-result first page. -/
def c3Zero : SearchPage := ⟨str "ZERO_RESULTS", [], none⟩

/-- Witness for C3: a failed follow-up page keeps the first page's partial
results, and a fruitless search returns the empty sequence. -/
theorem c3_search_accumulates_ok_pages_witness :
    tokensLinked [c3Page1, c3Page2] = true ∧
      search_nearby_roofing_companies [c3Page1, c3Page2] = [⟨str "s1", 41, -75⟩] ∧
      search_nearby_roofing_companies [c3Zero] = [] := by
  refine ⟨rfl, ?_, ?_⟩
  · rw [c3_search_accumulates_ok_pages [c3Page1, c3Page2] rfl]
    rfl
  · rw [c3_search_accumulates_ok_pages [c3Zero] rfl]
    rfl

/-! ## Claim C5: non-OK details response skips exactly that stub -/

/-- C5: a stub whose details request reports a non-success status yields the
empty record (no exception is modelled: `get_place_details` is total), and
the per-stub loop produces no Competitor for it while processing the
surrounding stubs exactly as if the stub were absent. -/
theorem c5_details_non_ok_skips_stub (dist : ℚ × ℚ → ℚ × ℚ → ℚ) (origin : ℚ × ℚ)
    (resp : Str → DetailsResponse) (p : Place) (l₁ l₂ : List Place)
    (h : ¬ (resp p.place_id).status = str "OK") :
    get_place_details (resp p.place_id) = emptyRecord ∧
      buildCompetitors dist origin resp (l₁ ++ p :: l₂) =
        buildCompetitors dist origin resp (l₁ ++ l₂) := by
  have h1 : get_place_details (resp p.place_id) = emptyRecord := by
    unfold get_place_details
    rw [if_neg h]
  refine ⟨h1, ?_⟩
  unfold buildCompetitors
  rw [List.foldl_append, List.foldl_append, List.foldl_cons]
  congr 1
  simp [h1, emptyRecord, DetailRecord.isEmpty]

/-- A sparse but non-empty detail record. -/
def c5Rec : DetailRecord :=
  { name := some (str "Good Roofer"), formatted_address := none,
    formatted_phone_number := none, rating := none, user_ratings_total := none,
    website := none, reviews := none }

/-- A details provider that fails for place id "bad" and succeeds otherwise. -/
def c5Resp : Str → DetailsResponse :=
  fun pid => if pid = str "bad" then ⟨str "NOT_FOUND", c5Rec⟩ else ⟨str "OK", c5Rec⟩

/-- The stub whose details request fails. -/
def c5Bad : Place := ⟨str "bad", 1, 2⟩

/-- A healthy stub before the failing one. -/
def c5G1 : Place := ⟨str "g1", 3, 4⟩

/-- A healthy stub after the failing one. -/
def c5G2 : Place := ⟨str "g2", 5, 6⟩

/-- The distance model for the C5 witness run. -/
def c5Dist : ℚ × ℚ → ℚ × ℚ → ℚ := fun _ _ => 1

/-- Witness for C5 at a concrete three-stub batch whose middle stub fails. -/
theorem c5_details_non_ok_skips_stub_witness :
    get_place_details (c5Resp c5Bad.place_id) = emptyRecord ∧
      buildCompetitors c5Dist (0, 0) c5Resp ([c5G1] ++ c5Bad :: [c5G2]) =
        buildCompetitors c5Dist (0, 0) c5Resp ([c5G1] ++ [c5G2]) :=
  c5_details_non_ok_skips_stub c5Dist (0, 0) c5Resp c5Bad [c5G1] [c5G2] (by decide)

/-! ## Claim C2: the end-to-end scenario -/

/-- The scenario's single review. -/
def scenReview : Review :=
  ⟨some (str "The roof repair was fast, the crew was professional, and the quote was $8,500.")⟩

/-- The scenario's detail record: one review, a business name, nothing else. -/
def scenRecord : DetailRecord :=
  { name := some (str "Acme Roofing"), formatted_address := none,
    formatted_phone_number := none, rating := none, user_ratings_total := none,
    website := none, reviews := some [scenReview] }

/-- The scenario's single stub. -/
def scenPlace : Place := ⟨str "place1", 40, -75⟩

/-- The scenario's geodesic model: the stub lies 2.0 miles from the origin. -/
def scenDist : ℚ × ℚ → ℚ × ℚ → ℚ := fun _ _ => 2

/-- The scenario's details provider. -/
def scenResp : Str → DetailsResponse := fun _ => ⟨str "OK", scenRecord⟩

/-- The Competitor the pipeline builds for the scenario stub. -/
def scenComp : Competitor := buildCompetitor scenDist (40, -75) scenPlace scenRecord

/-- The scenario's full pipeline output. -/
def scenRun : List Competitor := analyze_competitors scenDist (40, -75) scenResp [scenPlace]

/-- Counterexample to C2: on the claimed scenario the pipeline's
`pricingInfo` is not the one-element list `["$8,500"]` — the pattern
`quote.*\$[\d,]+` also matches, adding `"quote was $8,500"` — and
`reviewThemes` has no `estimate` entry, because "quote" alone is not a
trigger phrase of the `estimate` theme (its triggers are "free estimate",
"accurate estimate", "detailed quote", "overestimate"). -/
theorem c2_scenario_counterexample :
    scenRun = [scenComp] ∧
      scenComp.pricing_info ≠ [str "$8,500"] ∧
      scenComp.pricing_info = [str "$8,500", str "quote was $8,500"] ∧
      List.lookup (str "estimate") scenComp.review_themes = none := by
  refine ⟨rfl, by decide, by decide, by decide⟩

/-- C2 as amended: the scenario Competitor has `distanceMiles = 2.0`,
`pricingInfo = ["$8,500", "quote was $8,500"]`, `positiveKeywords`
containing "professional", and `reviewThemes` containing `speed` with
count 1 and no `estimate` entry. -/
theorem c2_scenario_amended :
    scenRun = [scenComp] ∧
      scenComp.distance_miles = 2 ∧
      scenComp.pricing_info = [str "$8,500", str "quote was $8,500"] ∧
      str "professional" ∈ scenComp.positive_keywords ∧
      List.lookup (str "speed") scenComp.review_themes = some 1 ∧
      List.lookup (str "estimate") scenComp.review_themes = none := by
  refine ⟨rfl, ?_, by decide, by decide, by decide, by decide⟩
  show round2 2 = 2
  norm_num [round2, roundHalfEven]

/-! ## Claim C1: the displayed average rating -/

/-- A detail record with no rating field. -/
def c1Record : DetailRecord :=
  { name := some (str "Unrated Roofing"), formatted_address := none,
    formatted_phone_number := none, rating := none, user_ratings_total := none,
    website := none, reviews := none }

/-- Details provider for the C1 run. -/
def c1Resp : Str → DetailsResponse := fun _ => ⟨str "OK", c1Record⟩

/-- The single stub of the C1 run. -/
def c1Place : Place := ⟨str "p1", 40, -75⟩

/-- A pipeline run that produces exactly one competitor, with rating 0. -/
def c1Run : List Competitor :=
  analyze_competitors (fun _ _ => 1) (40, -75) c1Resp [c1Place]

/-- A bare competitor with a given rating, for exercising the aggregation
stage. -/
def mkRated (q : ℚ) : Competitor :=
  { name := [], address := [], phone := [], rating := q, review_count := 0,
    website := [], distance_miles := 0, pricing_info := [], services := [],
    positive_keywords := [], negative_keywords := [], review_themes := [] }

/-- Ratings 4, 5 and 0: the mean over the positive-rating subset is 9/2. -/
def demoComps : List Competitor := [mkRated 4, mkRated 5, mkRated 0]

/-- C1: the displayed average is the mean of ratings over exactly the
competitors with rating > 0 — but when that subset is empty the code
evaluates `sum(...) / len([...])` with denominator 0 and raises
`ZeroDivisionError` (modelled by `none`) instead of reporting "no data":
a run that yields one competitor whose record lacks a rating reaches this
division by zero. -/
theorem c1_avg_rating_division_by_zero :
    (∀ comps : List Competitor,
        avg_rating comps =
          if (comps.filter (fun c => decide (0 < c.rating))).length = 0 then none
          else
            some (((comps.filter (fun c => decide (0 < c.rating))).map Competitor.rating).sum /
              ((comps.filter (fun c => decide (0 < c.rating))).length : ℚ))) ∧
      c1Run.map Competitor.rating = [0] ∧
      c1Run ≠ [] ∧
      avg_rating c1Run = none ∧
      avg_rating demoComps = some (9 / 2) := by
  refine ⟨fun comps => rfl, by decide, by decide, by decide, ?_⟩
  have hf : demoComps.filter (fun c => decide (0 < c.rating)) = [mkRated 4, mkRated 5] := by
    decide
  unfold avg_rating
  rw [hf]
  norm_num [mkRated]

/-! ## Claim C9: the rating field of constructed Competitors -/

/-- A detail record whose provider-supplied rating is 6. -/
def c9Record : DetailRecord :=
  { name := some (str "Six Star Roofing"), formatted_address := none,
    formatted_phone_number := none, rating := some 6, user_ratings_total := none,
    website := none, reviews := none }

/-- Details provider for the C9 counterexample run. -/
def c9Resp : Str → DetailsResponse := fun _ => ⟨str "OK", c9Record⟩

/-- The single stub of the C9 counterexample run. -/
def c9Place : Place := ⟨str "p9", 40, -75⟩

/-- A pipeline run whose single competitor carries rating 6. -/
def c9Run : List Competitor :=
  analyze_competitors (fun _ _ => 1) (40, -75) c9Resp [c9Place]

/-- Counterexample to C9: the code applies `details.get('rating', 0.0)`
without clamping, so a detail record whose rating field is 6 produces a
Competitor whose rating is 6 ∉ [0, 5]. -/
theorem c9_rating_range_counterexample :
    c9Run.map Competitor.rating = [6] ∧
      c9Run.all (fun c => decide (0 ≤ c.rating ∧ c.rating ≤ 5)) = false := by
  exact ⟨by decide, by decide⟩

/-- C9 as amended: a constructed Competitor's rating equals the fetched
record's rating when present and 0.0 when the field is absent; consequently
every rating of a run lies in [0, 5] whenever the provider's supplied
ratings do. -/
theorem c9_rating_default_and_bounded (dist : ℚ × ℚ → ℚ × ℚ → ℚ) (origin : ℚ × ℚ)
    (resp : Str → DetailsResponse) (places : List Place)
    (hb : ∀ pid r, (resp pid).result.rating = some r → 0 ≤ r ∧ r ≤ 5) :
    (∀ (place : Place) (rec : DetailRecord), rec.rating = none →
        (buildCompetitor dist origin place rec).rating = 0) ∧
      (∀ (place : Place) (rec : DetailRecord) (r : ℚ), rec.rating = some r →
        (buildCompetitor dist origin place rec).rating = r) ∧
      ∀ c ∈ analyze_competitors dist origin resp places, 0 ≤ c.rating ∧ c.rating ≤ 5 := by
  refine ⟨?_, ?_, ?_⟩
  · intro place rec hrec
    show rec.rating.getD 0 = 0
    rw [hrec]
    rfl
  · intro place rec r hrec
    show rec.rating.getD 0 = r
    rw [hrec]
    rfl
  · intro c hc
    have hmem : c ∈ buildCompetitors dist origin resp places :=
      (List.perm_insertionSort distLe (buildCompetitors dist origin resp places)).mem_iff.mp hc
    rcases mem_buildCompetitors hmem with ⟨place, _, rfl⟩
    have hrate : (buildCompetitor dist origin place
        (get_place_details (resp place.place_id))).rating =
        (get_place_details (resp place.place_id)).rating.getD 0 := rfl
    rw [hrate]
    by_cases hst : (resp place.place_id).status = str "OK"
    · unfold get_place_details
      rw [if_pos hst]
      cases hr : (resp place.place_id).result.rating with
      | none => norm_num
      | some r => simpa using hb place.place_id r hr
    · unfold get_place_details
      rw [if_neg hst]
      norm_num [emptyRecord]

/-- A detail record with an in-range rating for the C9 witness. -/
def c9wRec : DetailRecord :=
  { name := some (str "Four Star Roofing"), formatted_address := none,
    formatted_phone_number := none, rating := some 4, user_ratings_total := none,
    website := none, reviews := none }

/-- Details provider of the C9 witness run. -/
def c9wResp : Str → DetailsResponse := fun _ => ⟨str "OK", c9wRec⟩

/-- The single stub of the C9 witness run. -/
def c9wPlace : Place := ⟨str "pw", 40, -75⟩

/-- The competitor the C9 witness run builds. -/
def c9wComp : Competitor :=
  buildCompetitor (fun _ _ => 1) (40, -75) c9wPlace
    (get_place_details (c9wResp c9wPlace.place_id))

/-- Witness for the amended C9 at a concrete one-stub run with an in-range
provider rating. -/
theorem c9_rating_default_and_bounded_witness :
    (buildCompetitor (fun _ _ => 1) ((40 : ℚ), (-75 : ℚ)) c9wPlace emptyRecord).rating = 0 ∧
      (0 ≤ c9wComp.rating ∧ c9wComp.rating ≤ 5) := by
  have hb : ∀ pid r, ((c9wResp pid).result.rating = some r) → 0 ≤ r ∧ r ≤ 5 := by
    intro pid r h
    have h4 : (4 : ℚ) = r := by simpa [c9wResp, c9wRec] using h
    rw [← h4]
    norm_num
  have H := c9_rating_default_and_bounded (fun _ _ => 1) (40, -75) c9wResp [c9wPlace] hb
  refine ⟨H.1 c9wPlace emptyRecord rfl, H.2.2 c9wComp ?_⟩
  have hrun : analyze_competitors (fun _ _ => 1) (40, -75) c9wResp [c9wPlace] = [c9wComp] := rfl
  rw [hrun]
  exact List.mem_singleton.mpr rfl

/-! ## Claim C4: theme counting -/

/-- C4: for every review list, `reviewThemes` assigns each theme the sum of
non-overlapping substring-occurrence counts of its trigger phrases over the
single lower-cased blob, contains a theme exactly when that sum is positive
(so no entry has count ≤ 0), and keeps the double-counting of overlapping
trigger phrases — one textual "cleanup" counts once for "clean" and once
for "cleanup", giving the cleanup theme count 2. -/
theorem c4_review_theme_counts :
    (∀ reviews : List Review,
        (analyze_review_keywords reviews).2.2 =
            opportunity_keywords.filterMap
              (fun p =>
                if 0 < themeCount p.2 (allTextOf reviews) then
                  some (p.1, themeCount p.2 (allTextOf reviews))
                else none) ∧
          ((analyze_review_keywords reviews).2.2.all fun q => decide (0 < q.2)) = true) ∧
      (analyze_review_keywords [⟨some (str "great cleanup")⟩]).2.2 = [(str "cleanup", 2)] := by
  constructor
  · intro reviews
    refine ⟨analyze_themes_eq reviews, ?_⟩
    rw [List.all_eq_true]
    intro q hq
    rw [analyze_themes_eq] at hq
    rcases List.mem_filterMap.mp hq with ⟨p, _, hp⟩
    by_cases h : 0 < themeCount p.2 (allTextOf reviews)
    · rw [if_pos h] at hp
      cases hp
      simpa using h
    · rw [if_neg h] at hp
      exact absurd hp (by simp)
  · decide

/-! ## Claim C7: pricing extraction order, dedup, idempotence -/

/-- C7: `extractPricing` returns the first-seen-order deduplication of the
match stream taken review by review (each review's text matched separately)
and pattern by pattern; the result has no duplicates, and feeding the same
review set through again adds nothing. -/
theorem c7_extract_pricing_nodup_first_seen (reviews : List Review) :
    extract_pricing_from_reviews reviews = dedupFirst (pricingMatchStream reviews) ∧
      (extract_pricing_from_reviews reviews).Nodup ∧
      extract_pricing_from_reviews (reviews ++ reviews) =
        extract_pricing_from_reviews reviews := by
  refine ⟨extract_pricing_eq_dedup_stream reviews, ?_, ?_⟩
  · rw [extract_pricing_eq_dedup_stream]
    exact dedupFirst_nodup _
  · rw [extract_pricing_eq_dedup_stream, extract_pricing_eq_dedup_stream]
    have hsplit : pricingMatchStream (reviews ++ reviews) =
        pricingMatchStream reviews ++ pricingMatchStream reviews := by
      simp [pricingMatchStream]
    rw [hsplit, dedupFirst_append_self]

/-! ## Claim C8: the sort is ascending by distance and stable -/

/-- C8: every run's returned sequence is sorted ascending by
`distanceMiles`, is a permutation of the discovery-order list, and the sort
is stable: restricting the sorted output to any fixed distance value yields
exactly the discovery-order restriction, so equal-distance competitors keep
their relative discovery order. -/
theorem c8_sort_ascending_stable (dist : ℚ × ℚ → ℚ × ℚ → ℚ) (origin : ℚ × ℚ)
    (resp : Str → DetailsResponse) (places : List Place) :
    List.Sorted distLe (analyze_competitors dist origin resp places) ∧
      (analyze_competitors dist origin resp places).Perm
        (buildCompetitors dist origin resp places) ∧
      ∀ d : ℚ,
        (analyze_competitors dist origin resp places).filter
            (fun c => decide (c.distance_miles = d)) =
          (buildCompetitors dist origin resp places).filter
            (fun c => decide (c.distance_miles = d)) :=
  ⟨List.sorted_insertionSort distLe (buildCompetitors dist origin resp places),
    List.perm_insertionSort distLe (buildCompetitors dist origin resp places),
    fun d => filter_insertionSort_dist d (buildCompetitors dist origin resp places)⟩

/-! ## Claim C10: sentiment keyword ordering -/

/-- Reviews mentioning "scam" three times but with vocabulary-earlier
complaints appearing once each. -/
def c10Reviews : List Review :=
  [⟨some (str "scam scam scam disappointed rude late")⟩]

/-- Detail record carrying the C10 reviews. -/
def c10Record : DetailRecord :=
  { name := none, formatted_address := none, formatted_phone_number := none,
    rating := none, user_ratings_total := none, website := none,
    reviews := some c10Reviews }

/-- The Competitor built from the C10 reviews. -/
def c10Comp : Competitor :=
  buildCompetitor (fun _ _ => 0) (0, 0) ⟨str "px", 0, 0⟩ c10Record

/-- C10: the sentiment keyword lists are the vocabulary filtered by
presence in the blob — hence duplicate-free and ordered by fixed vocabulary
position, not by occurrence order or frequency.  Concretely, for reviews
where "scam" occurs 3 times and "disappointed"/"rude"/"late" once each, the
negative list follows vocabulary order and the Top Complaints column (first
3 negative keywords) omits the most frequent complaint "scam". -/
theorem c10_keywords_vocabulary_order :
    (∀ reviews : List Review,
        (analyze_review_keywords reviews).1 =
            positive_indicators.filter (fun k => containsSub (allTextOf reviews) k) ∧
          (analyze_review_keywords reviews).2.1 =
            negative_indicators.filter (fun k => containsSub (allTextOf reviews) k) ∧
          (analyze_review_keywords reviews).1.Nodup ∧
          (analyze_review_keywords reviews).2.1.Nodup) ∧
      (analyze_review_keywords c10Reviews).2.1 =
        [str "disappointed", str "rude", str "late", str "scam"] ∧
      c10Comp.negative_keywords = [str "disappointed", str "rude", str "late", str "scam"] ∧
      top_complaints c10Comp = [str "disappointed", str "rude", str "late"] ∧
      str "scam" ∉ top_complaints c10Comp ∧
      countOccs (str "scam") (allTextOf c10Reviews) = 3 ∧
      countOccs (str "disappointed") (allTextOf c10Reviews) = 1 := by
  constructor
  · intro reviews
    refine ⟨rfl, rfl, ?_, ?_⟩
    · exact List.Nodup.filter _ (by decide)
    · exact List.Nodup.filter _ (by decide)
  · refine ⟨by decide, by decide, by decide, by decide, by decide, by decide⟩

/-! ## Claim C6: the strict 30% service-gap threshold -/

/-- C6: with at least one competitor, a service is flagged as an
underserved-service gap exactly when its occurrence count divided by the
number of competitors is strictly below 3/10. -/
theorem c6_service_gap_strict_threshold (comps : List Competitor)
    (h : 0 < comps.length) (s : Str) :
    s ∈ gapServices comps ↔
      s ∈ all_services comps ∧
        ((all_services comps).count s : ℚ) / (comps.length : ℚ) < 3 / 10 := by
  unfold gapServices service_gaps serviceCounter
  constructor
  · intro hs
    rcases List.mem_map.mp hs with ⟨p, hp, rfl⟩
    rcases List.mem_filter.mp hp with ⟨hpc, hplt⟩
    rcases List.mem_map.mp hpc with ⟨s₀, hs₀, rfl⟩
    exact ⟨(mem_dedupFirst _ _).mp hs₀, by simpa using of_decide_eq_true hplt⟩
  · rintro ⟨hmem, hlt⟩
    refine List.mem_map.mpr ⟨(s, (all_services comps).count s), ?_, rfl⟩
    refine List.mem_filter.mpr ⟨?_, by simpa using hlt⟩
    exact List.mem_map.mpr ⟨s, (mem_dedupFirst _ _).mpr hmem, rfl⟩

/-- A bare competitor offering the given services. -/
def mkServ (ss : List Str) : Competitor :=
  { name := [], address := [], phone := [], rating := 0, review_count := 0,
    website := [], distance_miles := 0, pricing_info := [], services := ss,
    positive_keywords := [], negative_keywords := [], review_themes := [] }

/-- Ten competitors: 3 offer "Gutter" (ratio exactly 3/10), 2 offer
"Skylight" (ratio 2/10). -/
def comps10 : List Competitor :=
  [mkServ [str "Gutter"], mkServ [str "Gutter"], mkServ [str "Gutter"],
   mkServ [str "Skylight"], mkServ [str "Skylight"],
   mkServ [], mkServ [], mkServ [], mkServ [], mkServ []]

/-- Witness for C6: with 10 competitors, a service offered by 3 (ratio
exactly 0.30) is not flagged, while one offered by 2 (ratio 0.20) is. -/
theorem c6_service_gap_strict_threshold_witness :
    str "Gutter" ∉ gapServices comps10 ∧ str "Skylight" ∈ gapServices comps10 := by
  constructor
  · intro hmem
    have h2 := (c6_service_gap_strict_threshold comps10 (by decide) (str "Gutter")).mp hmem
    have hc : (all_services comps10).count (str "Gutter") = 3 := by decide
    have hlen : comps10.length = 10 := by decide
    rw [hc, hlen] at h2
    have h3 := h2.2
    norm_num at h3
  · refine (c6_service_gap_strict_threshold comps10 (by decide) (str "Skylight")).mpr
      ⟨by decide, ?_⟩
    have hc : (all_services comps10).count (str "Skylight") = 2 := by decide
    have hlen : comps10.length = 10 := by decide
    rw [hc, hlen]
    norm_num
